import Mathlib

/-!
Verification development for the ticket lifecycle / timeout worker of
cerberus-core (`src/worker/ticket.py`).

The Python worker is shallowly embedded: Django model rows become Lean
structures, the database becomes explicit lists of rows, external
collaborators (the action policy service, the `phishing` all-down check,
the rq scheduler, the async job result) become fields of an environment
record, and every side effect of a worker invocation (e-mails, scheduler
calls, audit-log writes) is collected in an explicit result record.
Uncaught Python exceptions are modelled with `Except`.

Timestamps are integers (epoch seconds), mirroring the worker's use of
`int(time())` and `int(mktime(...))`.
-/

namespace Cerberus

/-- Status-name constants from `src/worker/ticket.py` lines 54-56. -/
def WAITING : String := "WaitingAnswer"

def PAUSED : String := "Paused"

def ALARM : String := "Alarm"

/-- Constant `STATUS_SEQUENCE = [WAITING, ALARM, WAITING]` (line 58). -/
def STATUS_SEQUENCE : List String := [WAITING, ALARM, WAITING]

/-- Constant `ASYNC_JOB_TO_CANCEL` (lines 47-52). -/
def ASYNC_JOB_TO_CANCEL : List String :=
  ["action.apply_if_no_reply", "action.apply_then_close", "action.apply_action", "ticket.timeout"]

/-- Python's `str.lower()` as applied to the ASCII status and category
names handled by the worker: lowercase every character.  (Spelled as a map
over the character list so that the kernel can evaluate it.) -/
def strLower (s : String) : String := ⟨s.data.map Char.toLower⟩

/-- One `abuse.models.ReportItem` row, as consumed by `get_ip_for_action`:
its type tag, its `ip` column and its `fqdnResolved` column (both nullable). -/
structure ReportItem where
  itemType : String
  ip : Option String
  fqdnResolved : Option String
deriving DecidableEq

/-- One `abuse.models.Report` row with its related items
(`rep.reportItemRelatedReport`). -/
structure Report where
  items : List ReportItem
deriving DecidableEq

/-- One `abuse.models.ServiceActionJob` row owned by a ticket. -/
structure ServiceActionJob where
  asynchronousJobId : Nat
  ip : String
  actionId : Nat
  status : String
deriving DecidableEq

/-- One entry of `ticket.ticketHistory`; the list a ticket carries is
ordered newest first (the code orders by `-date`). -/
structure HistoryEntry where
  actionType : String
  ticketStatus : String
deriving DecidableEq

/-- An operator role; `modelsAuthorizations` is a JSON dict of dicts,
modelled as nested association lists with boolean leaves. -/
structure Role where
  modelsAuthorizations : List (String × List (String × Bool))
deriving DecidableEq

/-- The `.operator` related object of a user; its role may be missing
(`ObjectDoesNotExist` on access). -/
structure Operator where
  role : Option Role
deriving DecidableEq

/-- The user a ticket may be assigned to (`ticket.treatedBy`); the
`.operator` related object may be missing. -/
structure OperatorUser where
  operator : Option Operator
deriving DecidableEq

/-- Defendant details used by `_close_ticket`
(`ticket.defendant.details.email` / `.lang`). -/
structure Defendant where
  email : String
  lang : String
deriving DecidableEq

/-- A remediation action resolved by the external policy service. -/
structure Action where
  id : Nat
  name : String
deriving DecidableEq

/-- One `abuse.models.Ticket` row together with its associations, as the
worker reads and writes them.  `category` is `ticket.category.name`,
`service` is the component type of the related service (present iff the
FK is non-null), `resolution` records the codename passed to
`common.close_ticket`, `comments` the texts of attached `TicketComment`
rows, `contactedProviders` the e-mail column of the ticket's
`ContactedProvider` rows, and `ticketHistory` is newest first. -/
structure Ticket where
  id : Nat
  status : String
  category : String
  defendant : Option Defendant
  service : Option String
  treatedBy : Option OperatorUser
  escalated : Bool
  snoozeStart : Option Nat
  snoozeDuration : Option Nat
  pauseStart : Option Nat
  pauseDuration : Option Nat
  previousStatus : String
  jobs : List ServiceActionJob
  reports : List Report
  tags : List String
  comments : List String
  contactedProviders : List String
  ticketHistory : List HistoryEntry
  action : Option Action
  resolution : Option String
deriving DecidableEq

/-- An e-mail dispatched through `common.send_email`. -/
structure Email where
  recipients : List String
  template : String
  lang : Option String
deriving DecidableEq

/-- One `utils.scheduler.schedule(...)` call made by the worker. -/
structure SchedCall where
  func : String
  ticketId : Nat
  actionId : Nat
  ipAddr : String
deriving DecidableEq

/-- A job currently held by the rq scheduler, as `cancel_rq_scheduler_jobs`
sees it: its id, its `func_name`, and the `ticket_id` entry of its kwargs
when the kwargs dict has one (`job.kwargs['ticket_id']` raises `KeyError`
otherwise). -/
structure SchedJob where
  id : Nat
  funcName : String
  kwargsTicketId : Option Nat
deriving DecidableEq

/-- Lookup `Ticket.objects.get(id=tid)`: the first row with the given id, or the
not-found outcome (`ObjectDoesNotExist`). -/
def findTicket (tickets : List Ticket) (tid : Nat) : Option Ticket :=
  tickets.find? (fun t => t.id == tid)

/-- Persisting `ticket.save()` against a list-of-rows database: replace the row with
the given id. -/
def updateTicket (tickets : List Ticket) (tid : Nat) (t' : Ticket) : List Ticket :=
  tickets.map (fun u => if u.id == tid then t' else u)

/-- Modelled from the spec: `common.set_ticket_status` lives in the
`common` module, which is not under `src/`.  Per the spec it moves the
ticket to the given status, and with `reset_snooze` it also resets the
snooze fields (section 4.3: the WaitingAnswer-to-Alarm sweep transition
"then resets snooze fields"). -/
def set_ticket_status (t : Ticket) (st : String) (reset_snooze : Bool) : Ticket :=
  if reset_snooze then
    { t with status := st, snoozeStart := none, snoozeDuration := none }
  else
    { t with status := st }

/-- Modelled from the spec: `common.close_ticket` lives in the `common`
module, which is not under `src/`.  Per the spec it terminates the ticket
at `Closed`, recording the resolution codename passed by the caller
(section 4.3 Alarm-to-Closed; section 3 lifecycle: the core "terminates it
at Closed").  The spec's further closing side effect of cancelling the
ticket's still-pending scheduler jobs acts on the scheduler, not on the
ticket row modelled here. -/
def common_close_ticket (t : Ticket) (reason : String) : Ticket :=
  { t with status := "Closed", resolution := some reason }

/-- Gate `_check_timeout_ticket_conformance` (lines 192-220): the conformance
gate for timeout processing.  Each failed check only logs and returns
`False`.  The Python list-membership tests (`status.lower() in
['closed', 'answered']`, `category.name.lower() not in ['phishing',
'copyright', 'illegal']`) are spelled as the equality disjunctions they
denote. -/
def check_timeout_ticket_conformance (t : Ticket) : Bool :=
  if !t.defendant.isSome || !t.service.isSome then false
  else if strLower t.status == "closed" || strLower t.status == "answered" then false
  else if !(strLower t.category == "phishing" || strLower t.category == "copyright" ||
      strLower t.category == "illegal") then false
  else if t.treatedBy.isSome then false
  else if t.jobs.length != 0 then false
  else true

/-- The target IPs one report contributes in `get_ip_for_action`
(lines 168-181): the `ip` of items of type `IP` whose `ip` is non-null,
then the `fqdnResolved` of items of type `FQDN` or `URL` whose
`fqdnResolved` is non-null, in item order. -/
def reportTargetIps (rep : Report) : List String :=
  (rep.items.filterMap (fun itm => if itm.itemType == "IP" then itm.ip else none)) ++
    (rep.items.filterMap (fun itm =>
      if itm.itemType == "FQDN" || itm.itemType == "URL" then itm.fqdnResolved else none))

/-- All target IPs gathered over the ticket's reports
(`ticket.reportTicket.all()`), in report order. -/
def ticketTargetIps (t : Ticket) : List String :=
  (t.reports.map reportTargetIps).flatten

/-- Resolution `get_ip_for_action` (lines 157-189).  `ips = list(set(ips))` collapses
duplicates; with exactly one distinct value the result `ips[0]` is that
value, so the set's iteration order is immaterial and `List.dedup` models
it.  With zero or several distinct values the function logs and returns
`None`. -/
def get_ip_for_action (t : Ticket) : Option String :=
  let ips := (ticketTargetIps t).dedup
  if ips.length != 1 then none else ips.head?

/-- Tagging `ticket.tags.add(Tag.objects.get(name=tag))`: a Django many-to-many
add is set-like (adding an already-present tag is a no-op). -/
def addTag (t : Ticket) (tag : String) : Ticket :=
  if tag ∈ t.tags then t else { t with tags := t.tags ++ [tag] }

/-- Helper `_add_timeout_tag` (lines 298-315).  `settings.TAGS` maps configured
tag keys to tag names; it is external configuration, modelled as the
identity on the keys.  Returns the updated ticket and the audit-log
entries written. -/
def add_timeout_tag (t : Ticket) : Ticket × List String :=
  let tag_name : Option String :=
    if strLower t.category == "phishing" then some "phishing_autoclosed"
    else if strLower t.category == "copyright" then some "copyright_autoclosed"
    else none
  match tag_name with
  | some tag => (addTag t tag, ["add_tag"])
  | none => (t, [])

/-- Helper `_close_ticket` (lines 263-295).  Sends the "case closed" e-mail to
the distinct contacted providers, then the "service blocked" or "ticket
closed" e-mail to the defendant (`ticket.defendant.details.email` raises
`AttributeError` when the defendant FK is null, which no caller catches),
then applies `_add_timeout_tag` and `common.close_ticket`.
`settings.CODENAMES` (external configuration) is modelled as the identity
on codename keys.  Returns the closed ticket, the e-mails sent and the
audit-log entries written. -/
def close_ticket (t : Ticket) (reason : String) (service_blocked : Bool) :
    Except String (Ticket × List Email × List String) :=
  match t.defendant with
  | none => .error "AttributeError: ticket.defendant is None"
  | some d =>
    let caseClosed : Email :=
      { recipients := t.contactedProviders.dedup, template := "case_closed", lang := none }
    let template := if service_blocked then "service_blocked" else "ticket_closed"
    let defendantMail : Email :=
      { recipients := [d.email], template := template, lang := some d.lang }
    let tagged := add_timeout_tag t
    .ok (common_close_ticket tagged.1 reason, [caseClosed, defendantMail], tagged.2)

/-- Helper `_apply_timeout_action` (lines 223-260): record the chosen action on
the ticket and write the `set_action` audit entry, save, schedule the
asynchronous `action.apply_action` job, create the `ServiceActionJob` row
and add it to the ticket, then block until the job finishes.  `asyncJobId`
is the id the scheduler hands back.  Returns the saved ticket, the
scheduler call made and the audit entries written; the job's result is
read by the caller from the environment. -/
def apply_timeout_action (t : Ticket) (ip : String) (a : Action) (asyncJobId : Nat) :
    Ticket × SchedCall × List String :=
  let t1 := { t with action := some a }
  let call : SchedCall :=
    { func := "action.apply_action", ticketId := t.id, actionId := a.id, ipAddr := ip }
  let job : ServiceActionJob :=
    { asynchronousJobId := asyncJobId, ip := ip, actionId := a.id, status := "pending" }
  ({ t1 with jobs := t1.jobs ++ [job] }, call, ["set_action"])

/-- The environment of one `timeout` invocation: the ticket table, the
reply of the external policy service
(`ActionServiceBase.get_action_for_timeout`), the reply of
`phishing.is_all_down_for_ticket` (the `phishing` module is an external
collaborator of this worker), the id the scheduler assigns to a newly
scheduled job, and whether that job finishes with a truthy `result`. -/
structure TimeoutEnv where
  tickets : List Ticket
  actionForTimeout : Option Action
  allDown : Bool
  jobSucceeds : Bool
  nextJobId : Nat
deriving DecidableEq

/-- Everything one `timeout` invocation did: the final state of the ticket
row it worked on (`none` when the id did not resolve), the e-mails sent,
the scheduler calls made, and the audit-log entries written. -/
structure TimeoutResult where
  ticket : Option Ticket
  emails : List Email
  scheduled : List SchedCall
  logs : List String
deriving DecidableEq

/-- A `timeout` result that touched nothing: the ticket row is as found
and no side effect happened. -/
def noopResult (t : Option Ticket) : TimeoutResult :=
  { ticket := t, emails := [], scheduled := [], logs := [] }

/-- Entry point `timeout` (lines 95-154).  A ticket id that
does not resolve is logged and the function returns (the `except` clause
catches the ORM error); a conformance-gate failure or a missing policy
action returns with nothing changed; a phishing ticket whose items are all
down is closed with reason `fixed_customer` and no service block; a ticket
with no unique target IP is moved to `ActionError` with a diagnostic
comment attached and an `add_comment` audit entry; otherwise the action is
dispatched and, only if the asynchronous job reports success, the
re-fetched ticket is closed with reason `fixed` and a service block. -/
def timeout (env : TimeoutEnv) (ticket_id : Nat) : Except String TimeoutResult :=
  match findTicket env.tickets ticket_id with
  | none => .ok (noopResult none)
  | some ticket =>
    if check_timeout_ticket_conformance ticket then
      match env.actionForTimeout with
      | none => .ok (noopResult (some ticket))
      | some action =>
        if strLower ticket.category == "phishing" && env.allDown then
          match close_ticket ticket "fixed_customer" false with
          | .error e => .error e
          | .ok (t', emails, logs) =>
            .ok { ticket := some t', emails := emails, scheduled := [], logs := logs }
        else
          match get_ip_for_action ticket with
          | none =>
            let t1 := set_ticket_status ticket "ActionError" true
            let t2 := { t1 with comments :=
              t1.comments ++ ["None or multiple ip addresses for this ticket"] }
            .ok { ticket := some t2, emails := [], scheduled := [], logs := ["add_comment"] }
          | some ip_addr =>
            let applied := apply_timeout_action ticket ip_addr action env.nextJobId
            if !env.jobSucceeds then
              .ok { ticket := some applied.1, emails := [],
                    scheduled := [applied.2.1], logs := applied.2.2 }
            else
              match close_ticket applied.1 "fixed" true with
              | .error e => .error e
              | .ok (t', emails, logs) =>
                .ok { ticket := some t', emails := emails,
                      scheduled := [applied.2.1], logs := applied.2.2 ++ logs }
    else
      .ok (noopResult (some ticket))

/-- The attribute/dict chain
`ticket.treatedBy.operator.role.modelsAuthorizations['ticket']['unassignedOnMultipleAlarm']`
of `_check_auto_unassignation` (line 454).  Every step can fail
(`AttributeError` on a null FK, `ObjectDoesNotExist` on a missing related
row, `KeyError` on a missing dict key); a failed step yields `none`, which
the caller's `except` clause turns into "do not unassign". -/
def unassignedOnMultipleAlarmFlag (t : Ticket) : Option Bool :=
  match t.treatedBy with
  | none => none
  | some u =>
    match u.operator with
    | none => none
    | some op =>
      match op.role with
      | none => none
      | some r =>
        match r.modelsAuthorizations.lookup "ticket" with
        | none => none
        | some d => d.lookup "unassignedOnMultipleAlarm"

/-- The history queryset of `_check_auto_unassignation` (lines 446-451):
the ticket's `ChangeStatus` history entries, newest first
(`order_by('-date')` over the newest-first `ticketHistory`), projected to
their `ticketStatus` and truncated to the 3 most recent. -/
def statusChangeHistory3 (t : Ticket) : List String :=
  ((t.ticketHistory.filter (fun h => h.actionType == "ChangeStatus")).map
    (fun h => h.ticketStatus)).take 3

/-- Heuristic `_check_auto_unassignation` (lines 444-474), continued: with the
history in hand, if the operator-role flag is truthy, there are exactly 3
entries and they match `STATUS_SEQUENCE` index by index, clear `treatedBy`
and set `escalated` (writing two audit entries); any exception raised
inside the `try` block is swallowed. -/
def check_auto_unassignation (t : Ticket) : Ticket :=
  let history := statusChangeHistory3 t
  match unassignedOnMultipleAlarmFlag t with
  | none => t
  | some flag =>
    if flag && history.length == 3 &&
        (List.range 3).all (fun i => STATUS_SEQUENCE.getD i "" == history.getD i "") then
      { t with treatedBy := none, escalated := true }
    else t

/-- The body of the `update_waiting` loop (lines 428-441) for one ticket
of status `WaitingAnswer`: when the snooze deadline has elapsed, run the
auto-unassignation check and set status `Alarm` with the snooze reset.  A
null `snoozeStart` raises `AttributeError` on `.timetuple()`, which the
loop's `except` clause catches, leaving the ticket untouched; a null
`snoozeDuration` is likewise left untouched. -/
def update_waiting_ticket (now : Nat) (t : Ticket) : Ticket :=
  match t.snoozeStart, t.snoozeDuration with
  | some ss, some sd =>
    if now > ss + sd then set_ticket_status (check_auto_unassignation t) ALARM true
    else t
  | _, _ => t

/-- Sweep `update_waiting` (lines 423-441): over all tickets of status
`WaitingAnswer`. -/
def update_waiting (now : Nat) (tickets : List Ticket) : List Ticket :=
  tickets.map (fun t => if t.status == WAITING then update_waiting_ticket now t else t)

/-- The body of the `update_paused` loop (lines 482-500) for one ticket of
status `Paused`: when the pause deadline has elapsed, and the previous
status was `WaitingAnswer` with a truthy `snoozeDuration` and a set
`snoozeStart`, add `(datetime.now() - ticket.pauseStart).seconds` to
`snoozeDuration` — `.seconds` is the seconds component of the timedelta,
i.e. the elapsed pause time modulo 86400, not the total elapsed time —
then restore `previousStatus` and clear the pause fields.  A null
`pauseStart` raises `AttributeError`, caught by the loop's `except`
clause, leaving the ticket untouched. -/
def update_paused_ticket (now : Nat) (t : Ticket) : Ticket :=
  match t.pauseStart, t.pauseDuration with
  | some ps, some pd =>
    if now > ps + pd then
      let t1 :=
        if t.previousStatus == WAITING && t.snoozeDuration.getD 0 != 0 && t.snoozeStart.isSome
        then { t with snoozeDuration := t.snoozeDuration.map (· + (now - ps) % 86400) }
        else t
      let t2 := set_ticket_status t1 t1.previousStatus false
      { t2 with pauseStart := none, pauseDuration := none }
    else t
  | _, _ => t

/-- Sweep `update_paused` (lines 477-500): over all tickets of status
`Paused`. -/
def update_paused (now : Nat) (tickets : List Ticket) : List Ticket :=
  tickets.map (fun t => if t.status == PAUSED then update_paused_ticket now t else t)

/-- The environment of one `cancel_rq_scheduler_jobs` invocation: the
ticket table and the jobs currently held by the rq scheduler. -/
structure CancelEnv where
  tickets : List Ticket
  sched : List SchedJob
deriving DecidableEq

/-- The first loop of `cancel_rq_scheduler_jobs` (lines 371-375): for each
of the ticket's `ServiceActionJob` rows whose scheduler handle still
exists (`job.asynchronousJobId in utils.scheduler`), cancel it in the
scheduler and stamp the row `cancelled by <status>`; rows whose handle is
gone are skipped.  Returns the updated rows and the remaining scheduler
jobs. -/
def cancelTicketJobs (reason : String) :
    List ServiceActionJob → List SchedJob → List ServiceActionJob × List SchedJob
  | [], sched => ([], sched)
  | j :: rest, sched =>
    if sched.any (fun sj => sj.id == j.asynchronousJobId) then
      let sched' := sched.filter (fun sj => sj.id != j.asynchronousJobId)
      let r := cancelTicketJobs reason rest sched'
      ({ j with status := "cancelled by " ++ reason } :: r.1, r.2)
    else
      let r := cancelTicketJobs reason rest sched
      (j :: r.1, r.2)

/-- The second loop of `cancel_rq_scheduler_jobs` (lines 377-379): cancel
every scheduler job whose `func_name` is in `ASYNC_JOB_TO_CANCEL` and
whose kwargs carry this ticket's id.  `job.kwargs['ticket_id']` raises
`KeyError` (uncaught) when such a job has no `ticket_id` kwarg; the
short-circuiting `and` means the kwargs of other jobs are never read. -/
def cancelForFuncName (tid : Nat) : List SchedJob → Except String (List SchedJob)
  | [] => .ok []
  | sj :: rest =>
    if ASYNC_JOB_TO_CANCEL.contains sj.funcName then
      match sj.kwargsTicketId with
      | none => .error "KeyError: ticket_id"
      | some k =>
        if k == tid then cancelForFuncName tid rest
        else
          match cancelForFuncName tid rest with
          | .error e => .error e
          | .ok r => .ok (sj :: r)
    else
      match cancelForFuncName tid rest with
      | .error e => .error e
      | .ok r => .ok (sj :: r)

/-- Entry point `cancel_rq_scheduler_jobs` (lines 358-379).  When the ticket id does
not resolve, the ORM error is caught, but the handler's log call formats
`'Ticket %d cannot be found in DB. Skipping...' % (ticket)` with the local
variable `ticket` — which is unbound, since the assignment from the lookup
never completed — so the handler itself raises `UnboundLocalError`, which
nothing catches.  Otherwise both cancellation loops run. -/
def cancel_rq_scheduler_jobs (env : CancelEnv) (ticket_id : Nat) (status : String) :
    Except String CancelEnv :=
  match findTicket env.tickets ticket_id with
  | none => .error "UnboundLocalError: local variable ticket referenced before assignment"
  | some t =>
    let pass1 := cancelTicketJobs status t.jobs env.sched
    let t' := { t with jobs := pass1.1 }
    match cancelForFuncName t.id pass1.2 with
    | .error e => .error e
    | .ok sched2 => .ok { tickets := updateTicket env.tickets ticket_id t', sched := sched2 }

/-! Concrete instances used to exercise the model. -/

/-- A defendant with contact details. -/
def dDef : Defendant := { email := "defendant@example.com", lang := "EN" }

/-- A remediation action as resolved by the policy service. -/
def aAct : Action := { id := 7, name := "block_service" }

/-- A ticket that passes the timeout conformance gate: defendant and
service present, status `Alarm`, category `Copyright`, unassigned, no
jobs. -/
def baseTicket : Ticket :=
  { id := 1, status := "Alarm", category := "Copyright", defendant := some dDef,
    service := some "HOSTING", treatedBy := none, escalated := false,
    snoozeStart := none, snoozeDuration := none, pauseStart := none, pauseDuration := none,
    previousStatus := "", jobs := [], reports := [], tags := [], comments := [],
    contactedProviders := ["provider@example.com"], ticketHistory := [], action := none,
    resolution := none }

/-- A ticket rejected by the conformance gate: an operator is assigned. -/
def tGateFail : Ticket := { baseTicket with treatedBy := some { operator := none } }

/-- Environment holding only `tGateFail`. -/
def envGateFail : TimeoutEnv :=
  { tickets := [tGateFail], actionForTimeout := none, allDown := false,
    jobSucceeds := false, nextJobId := 0 }

/-- Alias of `baseTicket`: it has no reports, hence zero distinct target IPs. -/
def tC5 : Ticket := baseTicket

/-- Environment for the ambiguous-target run: action found, not all-down. -/
def envC5 : TimeoutEnv :=
  { tickets := [tC5], actionForTimeout := some aAct, allDown := false,
    jobSucceeds := false, nextJobId := 99 }

/-- A report item of type `IP` carrying `1.2.3.4`. -/
def itemIp : ReportItem := { itemType := "IP", ip := some "1.2.3.4", fqdnResolved := none }

/-- A report item of type `URL` resolved to `5.6.7.8`. -/
def itemUrl : ReportItem := { itemType := "URL", ip := none, fqdnResolved := some "5.6.7.8" }

/-- A conforming ticket with a single target IP `1.2.3.4`. -/
def tC6 : Ticket :=
  { baseTicket with reports := [{ items := [itemIp] }] }

/-- Environment for the failed-dispatch run: the scheduled job reports
failure. -/
def envC6 : TimeoutEnv :=
  { tickets := [tC6], actionForTimeout := some aAct, allDown := false,
    jobSucceeds := false, nextJobId := 99 }

/-- The state of `tC6` after the failed dispatch: action recorded and a
`ServiceActionJob` added, everything else untouched. -/
def tC6afterFail : Ticket :=
  { tC6 with
    action := some aAct,
    jobs := [{ asynchronousJobId := 99, ip := "1.2.3.4", actionId := 7, status := "pending" : ServiceActionJob }] }

/-- The single scheduler call the failed-dispatch run makes. -/
def callC6 : SchedCall :=
  { func := "action.apply_action", ticketId := 1, actionId := 7, ipAddr := "1.2.3.4" }

/-- A conforming phishing ticket with two distinct target IPs. -/
def tC10 : Ticket :=
  { baseTicket with
    category := "Phishing",
    reports := [{ items := [itemIp, itemUrl] }] }

/-- Environment for the all-down run: every item is reported down. -/
def envC10 : TimeoutEnv :=
  { tickets := [tC10], actionForTimeout := some aAct, allDown := true,
    jobSucceeds := true, nextJobId := 99 }

/-- A phishing ticket to close through `_close_ticket`. -/
def tC8 : Ticket := { baseTicket with category := "Phishing" }

/-- Expected ticket after closing `tC8` with reason `fixed`. -/
def tC8closed : Ticket :=
  { tC8 with status := "Closed", resolution := some "fixed", tags := ["phishing_autoclosed"] }

/-- Expected e-mails of the `tC8` close. -/
def emailsC8 : List Email :=
  [{ recipients := ["provider@example.com"], template := "case_closed", lang := none : Email },
   { recipients := ["defendant@example.com"], template := "service_blocked", lang := some "EN" : Email }]

/-- A `Paused` ticket whose pause (100000 s, past a full day) has elapsed
at `now = 100001`, previously `WaitingAnswer` with an active snooze. -/
def tC2 : Ticket :=
  { baseTicket with
    id := 2, status := "Paused", previousStatus := "WaitingAnswer",
    snoozeStart := some 10, snoozeDuration := some 50,
    pauseStart := some 0, pauseDuration := some 100000 }

/-- An environment with no tickets at all. -/
def envC7 : CancelEnv := { tickets := [], sched := [] }

/-- A ticket owning one live job (scheduler handle 11) and one stale job
(handle 99, no longer in the scheduler). -/
def tC9 : Ticket :=
  { baseTicket with
    id := 5,
    jobs := [{ asynchronousJobId := 11, ip := "1.2.3.4", actionId := 7, status := "pending" : ServiceActionJob },
             { asynchronousJobId := 99, ip := "1.2.3.4", actionId := 7, status := "done" : ServiceActionJob }] }

/-- Scheduler contents for the cancellation run: the live handle, a
pending cancellable job for the same ticket, and an unrelated job with no
`ticket_id` kwarg. -/
def envC9 : CancelEnv :=
  { tickets := [tC9],
    sched := [{ id := 11, funcName := "action.apply_action", kwargsTicketId := some 5 : SchedJob },
              { id := 12, funcName := "ticket.timeout", kwargsTicketId := some 5 : SchedJob },
              { id := 13, funcName := "report.archive", kwargsTicketId := none : SchedJob }] }

/-- The cancellation predicate of the second loop: a scheduler job is
cancelled iff its `func_name` is cancellable and its kwargs carry this
ticket's id. -/
def funcMatch (tid : Nat) (sj : SchedJob) : Bool :=
  ASYNC_JOB_TO_CANCEL.contains sj.funcName && sj.kwargsTicketId == some tid

/-! Theorems. -/

/-- C2.  The pause/unpause round-trip claim fails on the code: for the
`Paused` ticket `tC2` (previousStatus `WaitingAnswer`, snoozeStart 10,
snoozeDuration D = 50, pauseStart 0, pauseDuration 100000) swept at
`now = 100001`, the elapsed pause time is P = 100001 seconds, yet the
sweep yields `snoozeDuration = 50 + (100001 % 86400) = 13651`, not
`D + P = 100051`: the code adds only the sub-day seconds component of the
elapsed timedelta.  Status and snoozeStart are restored as claimed. -/
theorem update_paused_seconds_truncation :
    (update_paused 100001 [tC2]).map Ticket.status = ["WaitingAnswer"] ∧
    (update_paused 100001 [tC2]).map Ticket.snoozeStart = [some 10] ∧
    (update_paused 100001 [tC2]).map Ticket.snoozeDuration = [some 13651] ∧
    some (13651 : Nat) ≠ some (50 + (100001 - 0)) := by
  decide

/-- C7.  A `cancel_rq_scheduler_jobs` call whose ticket id resolves to no
row does not merely log and abort: the `except` handler formats its log
message with the local variable `ticket`, which is unbound because the
failed lookup never assigned it, so the handler raises
`UnboundLocalError` to the caller. -/
theorem cancel_rq_not_found_raises :
    cancel_rq_scheduler_jobs envC7 42 "answered" =
      .error "UnboundLocalError: local variable ticket referenced before assignment" := by
  rfl

/-- Helper: a ticket that passes the conformance gate has a defendant. -/
theorem conformance_defendant {t : Ticket}
    (h : check_timeout_ticket_conformance t = true) : t.defendant.isSome = true := by
  unfold check_timeout_ticket_conformance at h
  split_ifs at h with h1 h2 h3 h4 h5
  cases hd : t.defendant.isSome
  · exact absurd (by simp [hd]) h1
  · rfl

/-- C1: `timeout` proceeds past the conformance gate iff the ticket has a
defendant and a service, its lowercased status is neither `closed` nor
`answered`, its lowercased category is `phishing`, `copyright` or
`illegal`, it is unassigned, and it owns no jobs; when the gate fails,
`timeout` returns without raising and with neither the ticket nor any
side-effect channel touched. -/
theorem timeout_conformance_gate (env : TimeoutEnv) (tid : Nat) (t : Ticket)
    (hfind : findTicket env.tickets tid = some t) :
    (check_timeout_ticket_conformance t = true ↔
      (t.defendant.isSome ∧ t.service.isSome ∧
       strLower t.status ≠ "closed" ∧ strLower t.status ≠ "answered" ∧
       (strLower t.category = "phishing" ∨ strLower t.category = "copyright" ∨
         strLower t.category = "illegal") ∧
       t.treatedBy = none ∧ t.jobs = [])) ∧
    (check_timeout_ticket_conformance t = false →
      timeout env tid = .ok (noopResult (some t))) := by
  constructor
  · unfold check_timeout_ticket_conformance
    split_ifs with h1 h2 h3 h4 h5
    · simp only [false_iff]
      intro hP
      simp only [Bool.or_eq_true, Bool.not_eq_true'] at h1
      rcases h1 with h1 | h1
      · rw [hP.1] at h1; cases h1
      · rw [hP.2.1] at h1; cases h1
    · simp only [false_iff]
      intro hP
      simp only [Bool.or_eq_true, beq_iff_eq] at h2
      rcases h2 with h2 | h2
      · exact hP.2.2.1 h2
      · exact hP.2.2.2.1 h2
    · simp only [false_iff]
      intro hP
      rcases hP.2.2.2.2.1 with hc | hc | hc <;> simp [hc] at h3
    · simp only [false_iff]
      intro hP
      rw [hP.2.2.2.2.2.1] at h4
      cases h4
    · simp only [false_iff]
      intro hP
      rw [hP.2.2.2.2.2.2] at h5
      simp at h5
    · simp only [true_iff]
      refine ⟨?_, ?_, ?_, ?_, ?_, ?_, ?_⟩
      · cases hd : t.defendant.isSome
        · exact absurd (by simp [hd]) h1
        · rfl
      · cases hs : t.service.isSome
        · exact absurd (by simp [hs]) h1
        · rfl
      · intro hc
        exact h2 (by simp [hc])
      · intro hc
        exact h2 (by simp [hc])
      · have hor : (strLower t.category == "phishing" || strLower t.category == "copyright" ||
            strLower t.category == "illegal") = true := by
          cases hcat : (strLower t.category == "phishing" || strLower t.category == "copyright" ||
            strLower t.category == "illegal")
          · exact absurd (by simp [hcat]) h3
          · rfl
        simpa [Bool.or_eq_true, beq_iff_eq, or_assoc] using hor
      · simpa [Option.not_isSome_iff_eq_none] using h4
      · have h5' : t.jobs.length = 0 := by simpa [bne_iff_ne] using h5
        exact List.length_eq_zero.mp h5'
  · intro hfalse
    unfold timeout
    rw [hfind]
    simp [hfalse]

/-- C1 witness: `tGateFail` is assigned, so the gate rejects it and the
`timeout` run on its environment changes nothing. -/
theorem timeout_conformance_gate_witness :
    findTicket envGateFail.tickets 1 = some tGateFail ∧
    check_timeout_ticket_conformance tGateFail = false ∧
    timeout envGateFail 1 = .ok (noopResult (some tGateFail)) :=
  ⟨by decide, by decide,
    (timeout_conformance_gate envGateFail 1 tGateFail (by decide)).2 (by decide)⟩

/-- Helper: the indexed comparison of `_check_auto_unassignation`
(`len(history) == 3 and all(STATUS_SEQUENCE[i] == history[i] for i in
xrange(3))`) holds iff the list is exactly `[WaitingAnswer, Alarm,
WaitingAnswer]`. -/
theorem status_sequence_check (l : List String) :
    ((l.length == 3) &&
      (List.range 3).all (fun i => STATUS_SEQUENCE.getD i "" == l.getD i "")) = true ↔
    l = [WAITING, ALARM, WAITING] := by
  have hr : List.range 3 = [0, 1, 2] := rfl
  match l with
  | [] => simp
  | [a] => simp
  | [a, b] => simp
  | a :: b :: c :: rest =>
    cases rest with
    | nil =>
      rw [hr]
      constructor
      · intro h
        simp only [List.all_cons, List.all_nil, List.getD_cons_zero, List.getD_cons_succ,
          STATUS_SEQUENCE, Bool.and_eq_true, beq_iff_eq, Bool.and_true] at h
        obtain ⟨-, h0, h1, h2⟩ := h
        rw [← h0, ← h1, ← h2]
      · intro h
        rw [h]
        decide
    | cons d rest =>
      constructor
      · intro h
        simp only [List.length_cons, Bool.and_eq_true, beq_iff_eq] at h
        omega
      · intro h
        simp at h

/-- C3: during the `update_waiting` sweep, `_check_auto_unassignation`
clears `treatedBy` and sets `escalated` iff the role-configuration lookup
yields a truthy `unassignedOnMultipleAlarm` flag and the ticket's 3 most
recent status-change history entries, newest first, are exactly
`[WaitingAnswer, Alarm, WaitingAnswer]`; any other history, a disabled
flag, or any failure of the lookup chain leaves the ticket untouched and
raises nothing. -/
theorem auto_unassignation_spec (t : Ticket) :
    check_auto_unassignation t =
      if unassignedOnMultipleAlarmFlag t = some true ∧
          statusChangeHistory3 t = [WAITING, ALARM, WAITING]
      then { t with treatedBy := none, escalated := true }
      else t := by
  cases hf : unassignedOnMultipleAlarmFlag t with
  | none =>
    simp only [check_auto_unassignation, hf]
    rw [if_neg (fun h => absurd h.1 (by decide))]
  | some flag =>
    cases flag with
    | false =>
      simp only [check_auto_unassignation, hf, Bool.false_and, Bool.false_eq_true,
        if_false]
      rw [if_neg (fun h => absurd h.1 (by decide))]
    | true =>
      simp only [check_auto_unassignation, hf, Bool.true_and]
      by_cases hseq : statusChangeHistory3 t = [WAITING, ALARM, WAITING]
      · rw [if_pos ((status_sequence_check _).mpr hseq), if_pos ⟨trivial, hseq⟩]
      · rw [if_neg (fun h => hseq ((status_sequence_check _).mp h)),
          if_neg (fun h => hseq h.2)]

/-- C4: `get_ip_for_action` returns an address iff the distinct target
IPs gathered over the ticket's reports (item IPs plus resolved FQDN/URL
targets, duplicates collapsed) number exactly one, in which case it
returns that one; with zero or two-or-more distinct targets it returns
`None`. -/
theorem get_ip_for_action_spec (t : Ticket) :
    (∀ ip, get_ip_for_action t = some ip ↔
      ((ticketTargetIps t).toFinset.card = 1 ∧ ip ∈ ticketTargetIps t)) ∧
    (get_ip_for_action t = none ↔
      ((ticketTargetIps t).toFinset.card = 0 ∨ 2 ≤ (ticketTargetIps t).toFinset.card)) := by
  have hcard := List.card_toFinset (ticketTargetIps t)
  by_cases h1 : (ticketTargetIps t).dedup.length = 1
  · obtain ⟨a, ha⟩ := List.length_eq_one.mp h1
    have hval : get_ip_for_action t = some a := by
      simp only [get_ip_for_action, ha]
      rfl
    constructor
    · intro ip
      rw [hval, hcard, h1]
      constructor
      · intro hip
        injection hip with hip
        subst hip
        exact ⟨rfl, List.mem_dedup.mp (by rw [ha]; exact List.mem_singleton_self a)⟩
      · rintro ⟨-, hip⟩
        have hm : ip ∈ (ticketTargetIps t).dedup := List.mem_dedup.mpr hip
        rw [ha, List.mem_singleton] at hm
        rw [hm]
    · rw [hval, hcard, h1]
      constructor
      · intro h
        cases h
      · intro h
        exact absurd h (by omega)
  · have hval : get_ip_for_action t = none := by
      simp only [get_ip_for_action]
      rw [if_pos (by simpa [bne_iff_ne] using h1)]
    constructor
    · intro ip
      rw [hval, hcard]
      constructor
      · intro h
        cases h
      · rintro ⟨hc, -⟩
        exact absurd hc h1
    · rw [hval, hcard]
      constructor
      · intro _
        omega
      · intro _
        rfl

/-- Helper: `ticket.tags.add` always leaves the added tag present. -/
theorem mem_addTag (t : Ticket) (tag : String) : tag ∈ (addTag t tag).tags := by
  unfold addTag
  by_cases hm : tag ∈ t.tags
  · rw [if_pos hm]
    exact hm
  · rw [if_neg hm]
    exact List.mem_append_right _ (List.mem_singleton_self _)

/-- C5: when a conforming ticket with a policy action is not closed by the
all-down shortcut and IP resolution finds no unique address, `timeout`
sets the status to `ActionError`, attaches the diagnostic comment with an
`add_comment` audit entry, and stops: nothing is scheduled and the ticket
is not closed. -/
theorem timeout_ambiguous_ip (env : TimeoutEnv) (tid : Nat) (t : Ticket) (a : Action)
    (hfind : findTicket env.tickets tid = some t)
    (hgate : check_timeout_ticket_conformance t = true)
    (hact : env.actionForTimeout = some a)
    (hnd : ¬(strLower t.category = "phishing" ∧ env.allDown = true))
    (hip : get_ip_for_action t = none) :
    ∃ t', timeout env tid = .ok
        { ticket := some t', emails := [], scheduled := [], logs := ["add_comment"] } ∧
      t'.status = "ActionError" ∧ t'.status ≠ "Closed" ∧
      "None or multiple ip addresses for this ticket" ∈ t'.comments := by
  have hcond : (strLower t.category == "phishing" && env.allDown) = false := by
    cases hc : strLower t.category == "phishing" with
    | false => rfl
    | true =>
      cases hdn : env.allDown with
      | false => rfl
      | true => exact absurd ⟨beq_iff_eq.mp hc, hdn⟩ hnd
  refine ⟨{ t with
            status := "ActionError", snoozeStart := none, snoozeDuration := none,
            comments := t.comments ++ ["None or multiple ip addresses for this ticket"] },
    ?_, rfl, ?_, List.mem_append_right _ (List.mem_singleton_self _)⟩
  · simp only [timeout, hfind, hgate, if_true, hact, hcond, Bool.false_eq_true, if_false,
      hip, set_ticket_status]
  · show ("ActionError" : String) ≠ "Closed"
    decide

/-- C6 counterexample: in the failed-dispatch run on `envC6` the ticket
does not come out unchanged — the action is recorded and a
`ServiceActionJob` has been added — refuting the claim that no field of
the ticket and none of its associations are modified. -/
theorem timeout_failed_job_modifies_ticket :
    timeout envC6 1 = .ok
      { ticket := some tC6afterFail, emails := [], scheduled := [callC6],
        logs := ["set_action"] } ∧ tC6afterFail ≠ tC6 :=
  ⟨by rfl, by decide⟩

/-- C6 (amended): when the scheduled remediation job reports failure,
`timeout` does not retry (exactly one scheduler call), does not close the
ticket (no e-mail is sent and the status is untouched), and leaves every
other field as found — but the invocation has already recorded the chosen
action on the ticket, added a `ServiceActionJob` to it and written a
`set_action` audit entry before dispatch. -/
theorem timeout_failed_action_no_retry (env : TimeoutEnv) (tid : Nat) (t : Ticket)
    (a : Action) (ip : String)
    (hfind : findTicket env.tickets tid = some t)
    (hgate : check_timeout_ticket_conformance t = true)
    (hact : env.actionForTimeout = some a)
    (hnd : ¬(strLower t.category = "phishing" ∧ env.allDown = true))
    (hip : get_ip_for_action t = some ip)
    (hfail : env.jobSucceeds = false) :
    timeout env tid = .ok
      { ticket := some
          { t with
            action := some a,
            jobs := t.jobs ++ [{ asynchronousJobId := env.nextJobId, ip := ip, actionId := a.id, status := "pending" : ServiceActionJob }] },
        emails := [],
        scheduled := [{ func := "action.apply_action", ticketId := t.id, actionId := a.id, ipAddr := ip : SchedCall }],
        logs := ["set_action"] } := by
  have hcond : (strLower t.category == "phishing" && env.allDown) = false := by
    cases hc : strLower t.category == "phishing" with
    | false => rfl
    | true =>
      cases hdn : env.allDown with
      | false => rfl
      | true => exact absurd ⟨beq_iff_eq.mp hc, hdn⟩ hnd
  simp only [timeout, hfind, hgate, if_true, hact, hcond, Bool.false_eq_true, if_false,
    hip, hfail, Bool.not_false, if_true, apply_timeout_action]

/-- C6 witness for the amended theorem: the concrete failed-dispatch run. -/
theorem timeout_failed_action_no_retry_witness :
    findTicket envC6.tickets 1 = some tC6 ∧ get_ip_for_action tC6 = some "1.2.3.4" ∧
    envC6.jobSucceeds = false ∧
    timeout envC6 1 = .ok
      { ticket := some
          { tC6 with
            action := some aAct,
            jobs := tC6.jobs ++ [{ asynchronousJobId := envC6.nextJobId, ip := "1.2.3.4", actionId := aAct.id, status := "pending" : ServiceActionJob }] },
        emails := [],
        scheduled := [{ func := "action.apply_action", ticketId := tC6.id, actionId := aAct.id, ipAddr := "1.2.3.4" : SchedCall }],
        logs := ["set_action"] } :=
  ⟨by decide, by decide, by decide,
    timeout_failed_action_no_retry envC6 1 tC6 aAct "1.2.3.4" (by decide) (by decide)
      (by decide) (by decide) (by decide) (by decide)⟩

/-- C8: every close performed through `_close_ticket`, whatever the reason
codename and whether or not the service was blocked, applies the
`phishing_autoclosed` tag to phishing tickets, the `copyright_autoclosed`
tag to copyright tickets, and no autoclose tag to any other category. -/
theorem close_ticket_autoclose_tag (t : Ticket) (reason : String) (sb : Bool)
    (t' : Ticket) (emails : List Email) (logs : List String)
    (h : close_ticket t reason sb = .ok (t', emails, logs)) :
    (strLower t.category = "phishing" → "phishing_autoclosed" ∈ t'.tags) ∧
    (strLower t.category = "copyright" → "copyright_autoclosed" ∈ t'.tags) ∧
    (strLower t.category ≠ "phishing" → strLower t.category ≠ "copyright" →
      t'.tags = t.tags) := by
  unfold close_ticket at h
  cases hd : t.defendant with
  | none =>
    rw [hd] at h
    cases h
  | some d =>
    rw [hd] at h
    injection h with h
    have ht' : t' = common_close_ticket (add_timeout_tag t).1 reason :=
      (congrArg Prod.fst h).symm
    have htags : t'.tags = (add_timeout_tag t).1.tags := by
      rw [ht']
      rfl
    refine ⟨?_, ?_, ?_⟩
    · intro hc
      rw [htags]
      unfold add_timeout_tag
      rw [if_pos (beq_iff_eq.mpr hc)]
      exact mem_addTag t "phishing_autoclosed"
    · intro hc
      rw [htags]
      unfold add_timeout_tag
      rw [if_neg (by rw [hc]; decide), if_pos (beq_iff_eq.mpr hc)]
      exact mem_addTag t "copyright_autoclosed"
    · intro hc1 hc2
      rw [htags]
      unfold add_timeout_tag
      rw [if_neg (fun hb => hc1 (beq_iff_eq.mp hb)), if_neg (fun hb => hc2 (beq_iff_eq.mp hb))]

/-- C8 witness: closing the phishing ticket `tC8` on the
remediation-success path tags it `phishing_autoclosed`. -/
theorem close_ticket_autoclose_tag_witness :
    close_ticket tC8 "fixed" true = .ok (tC8closed, emailsC8, ["add_tag"]) ∧
    "phishing_autoclosed" ∈ tC8closed.tags :=
  ⟨by rfl,
    (close_ticket_autoclose_tag tC8 "fixed" true tC8closed emailsC8 ["add_tag"]
      (by rfl)).1 (by decide)⟩

/-- C10: the phishing all-down check runs before IP resolution, so a
conforming phishing ticket with a policy action whose items are all down
is closed with reason `fixed_customer` and no service-block e-mail —
whatever its target IPs look like — and in particular is never moved to
`ActionError`. -/
theorem timeout_alldown_before_ip (env : TimeoutEnv) (tid : Nat) (t : Ticket) (a : Action)
    (hfind : findTicket env.tickets tid = some t)
    (hgate : check_timeout_ticket_conformance t = true)
    (hact : env.actionForTimeout = some a)
    (hph : strLower t.category = "phishing")
    (hdown : env.allDown = true) :
    ∃ t' emails logs, timeout env tid = .ok
        { ticket := some t', emails := emails, scheduled := [], logs := logs } ∧
      t'.status = "Closed" ∧ t'.resolution = some "fixed_customer" ∧
      t'.status ≠ "ActionError" ∧ ∀ e ∈ emails, e.template ≠ "service_blocked" := by
  have hdef := conformance_defendant hgate
  cases hd : t.defendant with
  | none =>
    rw [hd] at hdef
    cases hdef
  | some d =>
    have hcond : (strLower t.category == "phishing" && env.allDown) = true := by
      rw [hph, hdown]
      rfl
    refine ⟨common_close_ticket (add_timeout_tag t).1 "fixed_customer",
      [{ recipients := t.contactedProviders.dedup, template := "case_closed", lang := none },
       { recipients := [d.email], template := "ticket_closed", lang := some d.lang }],
      (add_timeout_tag t).2, ?_, rfl, rfl, ?_, ?_⟩
    · simp only [timeout, hfind, hgate, if_true, hact, hcond, if_true, close_ticket, hd,
        Bool.false_eq_true, if_false]
    · show ("Closed" : String) ≠ "ActionError"
      decide
    · intro e he
      rcases List.mem_cons.mp he with he | he
      · rw [he]
        show ("case_closed" : String) ≠ "service_blocked"
        decide
      · rcases List.mem_cons.mp he with he | he
        · rw [he]
          show ("ticket_closed" : String) ≠ "service_blocked"
          decide
        · cases he

/-- C5 witness: the concrete run on `envC5` (conforming copyright ticket,
action found, zero target IPs) ends in `ActionError` with the diagnostic
comment. -/
theorem timeout_ambiguous_ip_witness :
    findTicket envC5.tickets 1 = some tC5 ∧ get_ip_for_action tC5 = none ∧
    (∃ t', timeout envC5 1 = .ok
        { ticket := some t', emails := [], scheduled := [], logs := ["add_comment"] } ∧
      t'.status = "ActionError" ∧ t'.status ≠ "Closed" ∧
      "None or multiple ip addresses for this ticket" ∈ t'.comments) :=
  ⟨by decide, by decide,
    timeout_ambiguous_ip envC5 1 tC5 aAct (by decide) (by decide) (by decide) (by decide)
      (by decide)⟩

/-- C10 witness: the concrete run on `envC10` — a phishing ticket with TWO
distinct target IPs and every item down — closes with `fixed_customer`
instead of entering `ActionError`. -/
theorem timeout_alldown_before_ip_witness :
    findTicket envC10.tickets 1 = some tC10 ∧ envC10.allDown = true ∧
    (ticketTargetIps tC10).toFinset.card = 2 ∧
    (∃ t' emails logs, timeout envC10 1 = .ok
        { ticket := some t', emails := emails, scheduled := [], logs := logs } ∧
      t'.status = "Closed" ∧ t'.resolution = some "fixed_customer" ∧
      t'.status ≠ "ActionError" ∧ ∀ e ∈ emails, e.template ≠ "service_blocked") :=
  ⟨by decide, by decide, by decide,
    timeout_alldown_before_ip envC10 1 tC10 aAct (by decide) (by decide) (by decide)
      (by decide) (by decide)⟩

/-- Helper: a boolean that is not true is false. -/
theorem bool_eq_false {b : Bool} (h : ¬b = true) : b = false := by
  cases b
  · rfl
  · exact absurd rfl h

/-- Helper: the first cancellation loop only removes scheduler jobs, so
its resulting scheduler state is a subset of the input. -/
theorem cancelTicketJobs_sched_subset (reason : String) (jobs : List ServiceActionJob)
    (sched : List SchedJob) :
    ∀ sj ∈ (cancelTicketJobs reason jobs sched).2, sj ∈ sched := by
  induction jobs generalizing sched with
  | nil =>
    intro sj h
    exact h
  | cons j rest ih =>
    intro sj h
    by_cases hc : sched.any (fun x => x.id == j.asynchronousJobId) = true
    · have h' : sj ∈ (cancelTicketJobs reason rest
          (sched.filter (fun x => x.id != j.asynchronousJobId))).2 := by
        simpa only [cancelTicketJobs, hc, if_true] using h
      exact List.mem_of_mem_filter (ih _ sj h')
    · have h' : sj ∈ (cancelTicketJobs reason rest sched).2 := by
        simpa only [cancelTicketJobs, bool_eq_false hc, Bool.false_eq_true, if_false]
          using h
      exact ih _ sj h'

/-- Helper: after the first cancellation loop, no surviving scheduler job
carries the handle of any of the ticket's (updated) jobs. -/
theorem cancelTicketJobs_clears (reason : String) (jobs : List ServiceActionJob)
    (sched : List SchedJob) :
    ∀ j' ∈ (cancelTicketJobs reason jobs sched).1,
      ∀ sj ∈ (cancelTicketJobs reason jobs sched).2, sj.id ≠ j'.asynchronousJobId := by
  induction jobs generalizing sched with
  | nil =>
    intro j' h
    cases h
  | cons j rest ih =>
    intro j' hj' sj hsj
    by_cases hc : sched.any (fun x => x.id == j.asynchronousJobId) = true
    · have hj'' : j' ∈ ({ j with status := "cancelled by " ++ reason } ::
          (cancelTicketJobs reason rest
            (sched.filter (fun x => x.id != j.asynchronousJobId))).1) := by
        simpa only [cancelTicketJobs, hc, if_true] using hj'
      have hsj'' : sj ∈ (cancelTicketJobs reason rest
          (sched.filter (fun x => x.id != j.asynchronousJobId))).2 := by
        simpa only [cancelTicketJobs, hc, if_true] using hsj
      rcases List.mem_cons.mp hj'' with heq | hmem
      · rw [heq]
        show sj.id ≠ j.asynchronousJobId
        have hf : sj ∈ sched.filter (fun x => x.id != j.asynchronousJobId) :=
          cancelTicketJobs_sched_subset reason rest _ sj hsj''
        have hbne := List.of_mem_filter hf
        exact bne_iff_ne.mp hbne
      · exact ih _ j' hmem sj hsj''
    · have hcf := bool_eq_false hc
      have hj'' : j' ∈ (j :: (cancelTicketJobs reason rest sched).1) := by
        simpa only [cancelTicketJobs, hcf, Bool.false_eq_true, if_false] using hj'
      have hsj'' : sj ∈ (cancelTicketJobs reason rest sched).2 := by
        simpa only [cancelTicketJobs, hcf, Bool.false_eq_true, if_false] using hsj
      rcases List.mem_cons.mp hj'' with heq | hmem
      · rw [heq]
        show sj.id ≠ j.asynchronousJobId
        have hsched : sj ∈ sched := cancelTicketJobs_sched_subset reason rest sched sj hsj''
        intro he
        have hany : sched.any (fun x => x.id == j.asynchronousJobId) = true :=
          List.any_eq_true.mpr ⟨sj, hsched, beq_iff_eq.mpr he⟩
        rw [hany] at hcf
        cases hcf
      · exact ih _ j' hmem sj hsj''

/-- Helper: when none of the ticket's jobs has a live scheduler handle,
the first cancellation loop changes nothing. -/
theorem cancelTicketJobs_id (reason : String) (jobs : List ServiceActionJob)
    (sched : List SchedJob)
    (h : ∀ j ∈ jobs, ∀ sj ∈ sched, sj.id ≠ j.asynchronousJobId) :
    cancelTicketJobs reason jobs sched = (jobs, sched) := by
  induction jobs with
  | nil => rfl
  | cons j rest ih =>
    have hcf : sched.any (fun x => x.id == j.asynchronousJobId) = false := by
      cases hca : sched.any (fun x => x.id == j.asynchronousJobId) with
      | false => rfl
      | true =>
        obtain ⟨x, hx, hxe⟩ := List.any_eq_true.mp hca
        exact absurd (beq_iff_eq.mp hxe) (h j (List.mem_cons_self _ _) x hx)
    have ihr := ih (fun j' hj' sj hsj => h j' (List.mem_cons_of_mem _ hj') sj hsj)
    simp only [cancelTicketJobs, hcf, Bool.false_eq_true, if_false, ihr]

/-- Helper: a ticket job whose scheduler handle no longer exists is
skipped: it survives the first cancellation loop unchanged. -/
theorem cancelTicketJobs_keeps (reason : String) (jobs : List ServiceActionJob)
    (sched : List SchedJob) :
    ∀ j ∈ jobs, (∀ sj ∈ sched, sj.id ≠ j.asynchronousJobId) →
      j ∈ (cancelTicketJobs reason jobs sched).1 := by
  induction jobs generalizing sched with
  | nil =>
    intro j h
    cases h
  | cons j0 rest ih =>
    intro j hj hstale
    rcases List.mem_cons.mp hj with heq | hj
    · subst heq
      have hcf : sched.any (fun x => x.id == j.asynchronousJobId) = false := by
        cases hca : sched.any (fun x => x.id == j.asynchronousJobId) with
        | false => rfl
        | true =>
          obtain ⟨x, hx, hxe⟩ := List.any_eq_true.mp hca
          exact absurd (beq_iff_eq.mp hxe) (hstale x hx)
      simp only [cancelTicketJobs, hcf, Bool.false_eq_true, if_false]
      exact List.mem_cons_self _ _
    · by_cases hc : sched.any (fun x => x.id == j0.asynchronousJobId) = true
      · simp only [cancelTicketJobs, hc, if_true]
        exact List.mem_cons_of_mem _
          (ih _ j hj (fun sj hsj => hstale sj (List.mem_of_mem_filter hsj)))
      · simp only [cancelTicketJobs, bool_eq_false hc, Bool.false_eq_true, if_false]
        exact List.mem_cons_of_mem _ (ih _ j hj hstale)

/-- Helper: when every cancellable scheduler job has a `ticket_id` kwarg,
the second cancellation loop succeeds, and its survivors are a subset of
the input on which the cancellation predicate is everywhere false. -/
theorem cancelForFuncName_ok (tid : Nat) (sched : List SchedJob)
    (hwf : ∀ sj ∈ sched, ASYNC_JOB_TO_CANCEL.contains sj.funcName = true →
      sj.kwargsTicketId.isSome = true) :
    ∃ r, cancelForFuncName tid sched = .ok r ∧ (∀ x ∈ r, x ∈ sched) ∧
      ∀ x ∈ r, funcMatch tid x = false := by
  induction sched with
  | nil =>
    exact ⟨[], rfl, fun x hx => absurd hx (List.not_mem_nil x),
      fun x hx => absurd hx (List.not_mem_nil x)⟩
  | cons sj rest ih =>
    obtain ⟨r, hr, hsub, hnm⟩ := ih (fun x hx hc => hwf x (List.mem_cons_of_mem _ hx) hc)
    by_cases hcont : ASYNC_JOB_TO_CANCEL.contains sj.funcName = true
    · cases hk : sj.kwargsTicketId with
      | none =>
        have hs := hwf sj (List.mem_cons_self _ _) hcont
        rw [hk] at hs
        cases hs
      | some k =>
        cases hke : (k == tid) with
        | true =>
          refine ⟨r, ?_, fun x hx => List.mem_cons_of_mem _ (hsub x hx), hnm⟩
          simp only [cancelForFuncName, hcont, if_true, hk, hke, hr]
        | false =>
          refine ⟨sj :: r, ?_, ?_, ?_⟩
          · simp only [cancelForFuncName, hcont, if_true, hk, hke, Bool.false_eq_true,
              if_false, hr]
          · intro x hx
            rcases List.mem_cons.mp hx with rfl | hx
            · exact List.mem_cons_self _ _
            · exact List.mem_cons_of_mem _ (hsub x hx)
          · intro x hx
            rcases List.mem_cons.mp hx with rfl | hx
            · have hkne : k ≠ tid := by
                intro h
                rw [h] at hke
                simp at hke
              simp only [funcMatch, hk, hcont, Bool.true_and]
              cases hsome : (some k == some tid) with
              | false => rfl
              | true => exact absurd (by injection beq_iff_eq.mp hsome) hkne
            · exact hnm x hx
    · have hcf := bool_eq_false hcont
      refine ⟨sj :: r, ?_, ?_, ?_⟩
      · simp only [cancelForFuncName, hcf, Bool.false_eq_true, if_false, hr]
      · intro x hx
        rcases List.mem_cons.mp hx with rfl | hx
        · exact List.mem_cons_self _ _
        · exact List.mem_cons_of_mem _ (hsub x hx)
      · intro x hx
        rcases List.mem_cons.mp hx with rfl | hx
        · simp only [funcMatch, hcf, Bool.false_and]
        · exact hnm x hx

/-- Helper: on a scheduler state where the cancellation predicate is
everywhere false (and kwargs are well-formed), the second loop is the
identity. -/
theorem cancelForFuncName_id (tid : Nat) (sched : List SchedJob)
    (hwf : ∀ sj ∈ sched, ASYNC_JOB_TO_CANCEL.contains sj.funcName = true →
      sj.kwargsTicketId.isSome = true)
    (hnm : ∀ sj ∈ sched, funcMatch tid sj = false) :
    cancelForFuncName tid sched = .ok sched := by
  induction sched with
  | nil => rfl
  | cons sj rest ih =>
    have ihr := ih (fun x hx hc => hwf x (List.mem_cons_of_mem _ hx) hc)
      (fun x hx => hnm x (List.mem_cons_of_mem _ hx))
    by_cases hcont : ASYNC_JOB_TO_CANCEL.contains sj.funcName = true
    · cases hk : sj.kwargsTicketId with
      | none =>
        have hs := hwf sj (List.mem_cons_self _ _) hcont
        rw [hk] at hs
        cases hs
      | some k =>
        have hfm := hnm sj (List.mem_cons_self _ _)
        simp only [funcMatch, hcont, Bool.true_and, hk] at hfm
        have hke : (k == tid) = false := by
          cases hke' : (k == tid) with
          | false => rfl
          | true =>
            rw [beq_iff_eq.mp hke'] at hfm
            simp at hfm
        simp only [cancelForFuncName, hcont, if_true, hk, hke, Bool.false_eq_true,
          if_false, ihr]
    · simp only [cancelForFuncName, bool_eq_false hcont, Bool.false_eq_true, if_false, ihr]

/-- Helper: re-fetching after a save returns the saved row. -/
theorem findTicket_updateTicket (ts : List Ticket) (tid : Nat) (t t' : Ticket)
    (hfind : findTicket ts tid = some t) (hid : (t'.id == tid) = true) :
    findTicket (updateTicket ts tid t') tid = some t' := by
  induction ts with
  | nil => cases hfind
  | cons u rest ih =>
    simp only [updateTicket, List.map_cons]
    by_cases hu : (u.id == tid) = true
    · rw [if_pos hu]
      exact @List.find?_cons_of_pos Ticket (fun x => x.id == tid) t' _ hid
    · rw [if_neg hu]
      have hfind' : findTicket rest tid = some t := by
        have hstep : List.find? (fun x => x.id == tid) (u :: rest) = some t := hfind
        rwa [@List.find?_cons_of_neg Ticket (fun x => x.id == tid) u rest hu] at hstep
      have ih' := ih hfind'
      show List.find? (fun x => x.id == tid) (u :: _) = some t'
      rw [@List.find?_cons_of_neg Ticket (fun x => x.id == tid) u _ hu]
      exact ih'

/-- Helper: saving the same row twice is the same as saving it once. -/
theorem updateTicket_idem (ts : List Ticket) (tid : Nat) (t' : Ticket)
    (hid : (t'.id == tid) = true) :
    updateTicket (updateTicket ts tid t') tid t' = updateTicket ts tid t' := by
  induction ts with
  | nil => rfl
  | cons u rest ih =>
    simp only [updateTicket, List.map_cons] at ih ⊢
    by_cases hu : (u.id == tid) = true
    · rw [if_pos hu, if_pos hid, ih]
    · rw [if_neg hu, if_neg hu, ih]

/-- C9: `cancel_rq_scheduler_jobs` on a resolvable ticket in a well-formed
scheduler (every cancellable job carries its `ticket_id` kwarg) succeeds
even when some of the ticket's jobs have stale scheduler handles, skips
exactly those stale jobs (they survive unchanged), and is idempotent:
running it a second time returns the same state unchanged. -/
theorem cancel_rq_idempotent (env : CancelEnv) (tid : Nat) (s : String) (t : Ticket)
    (hfind : findTicket env.tickets tid = some t)
    (hwf : ∀ sj ∈ env.sched, ASYNC_JOB_TO_CANCEL.contains sj.funcName = true →
      sj.kwargsTicketId.isSome = true) :
    ∃ env', cancel_rq_scheduler_jobs env tid s = .ok env' ∧
      cancel_rq_scheduler_jobs env' tid s = .ok env' ∧
      ∃ t', findTicket env'.tickets tid = some t' ∧
        ∀ j ∈ t.jobs, (∀ sj ∈ env.sched, sj.id ≠ j.asynchronousJobId) → j ∈ t'.jobs := by
  have hfind0 : List.find? (fun x => x.id == tid) env.tickets = some t := hfind
  have hid : (t.id == tid) = true :=
    @List.find?_some Ticket (fun x => x.id == tid) t env.tickets hfind0
  have hwf1 : ∀ sj ∈ (cancelTicketJobs s t.jobs env.sched).2,
      ASYNC_JOB_TO_CANCEL.contains sj.funcName = true → sj.kwargsTicketId.isSome = true :=
    fun sj h hc => hwf sj (cancelTicketJobs_sched_subset s t.jobs env.sched sj h) hc
  obtain ⟨r2, hok2, hsub2, hnm2⟩ := cancelForFuncName_ok t.id _ hwf1
  refine ⟨⟨updateTicket env.tickets tid
    { t with jobs := (cancelTicketJobs s t.jobs env.sched).1 }, r2⟩, ?_, ?_, ?_⟩
  · simp only [cancel_rq_scheduler_jobs, hfind, hok2]
  · have hfind2 : findTicket (updateTicket env.tickets tid
        { t with jobs := (cancelTicketJobs s t.jobs env.sched).1 }) tid =
        some { t with jobs := (cancelTicketJobs s t.jobs env.sched).1 } :=
      findTicket_updateTicket _ _ _ _ hfind hid
    have hstale2 : ∀ j' ∈ (cancelTicketJobs s t.jobs env.sched).1, ∀ sj ∈ r2,
        sj.id ≠ j'.asynchronousJobId :=
      fun j' hj' sj hsj =>
        cancelTicketJobs_clears s t.jobs env.sched j' hj' sj (hsub2 sj hsj)
    have hpass12 : cancelTicketJobs s (cancelTicketJobs s t.jobs env.sched).1 r2 =
        ((cancelTicketJobs s t.jobs env.sched).1, r2) :=
      cancelTicketJobs_id s _ r2 (fun j hj sj hsj => hstale2 j hj sj hsj)
    have hok2' : cancelForFuncName t.id r2 = .ok r2 :=
      cancelForFuncName_id t.id r2 (fun sj h hc => hwf1 sj (hsub2 sj h) hc) hnm2
    simp only [cancel_rq_scheduler_jobs, hfind2, hpass12, hok2']
    rw [updateTicket_idem env.tickets tid
      { t with jobs := (cancelTicketJobs s t.jobs env.sched).1 } hid]
  · exact ⟨{ t with jobs := (cancelTicketJobs s t.jobs env.sched).1 },
      findTicket_updateTicket _ _ _ _ hfind hid,
      fun j hj hstale => cancelTicketJobs_keeps s t.jobs env.sched j hj hstale⟩

/-- C9 witness: the concrete run on `envC9`, where the ticket owns one
live job and one stale job (handle 99 gone from the scheduler). -/
theorem cancel_rq_idempotent_witness :
    findTicket envC9.tickets 5 = some tC9 ∧
    (∃ env', cancel_rq_scheduler_jobs envC9 5 "answered" = .ok env' ∧
      cancel_rq_scheduler_jobs env' 5 "answered" = .ok env' ∧
      ∃ t', findTicket env'.tickets 5 = some t' ∧
        ∀ j ∈ tC9.jobs, (∀ sj ∈ envC9.sched, sj.id ≠ j.asynchronousJobId) → j ∈ t'.jobs) :=
  ⟨by decide, cancel_rq_idempotent envC9 5 "answered" tC9 (by decide) (by decide)⟩

end Cerberus
